import Mathlib

/-!
Verification development for the `kd45_controller` trajectory controller
(`src/include/kd45_controller_impl.h`).  The controller's real-time loop
(`update`) and goal acceptance callback (`goalCB`) are embedded shallowly:
scalars (C++ `double`) become `ℚ`, joint handles become records of the fields
the code reads, pointers to goal handles become `Option` values carrying
the data the code inspects (identity of the goal, whether its preallocated
result/feedback payloads are non-null), and the observable side effects of a
tick (goal events, hardware command issuance, feedback emission, state
publication, early return, null-pointer dereference) are collected in an
explicit result record.  Helper routines that live in upstream packages
(`angles::shortest_angular_distance`, `trajectory_interface` sampling,
`checkStateTolerancePerJoint`, `internal::mapping`) are modelled from the
spec, as flagged on each definition.
-/

namespace KD45

/-- Error codes of `control_msgs::FollowJointTrajectoryResult` used by the
controller. -/
inductive ErrorCode where
  | SUCCESSFUL
  | INVALID_GOAL
  | INVALID_JOINTS
  | PATH_TOLERANCE_VIOLATED
  | GOAL_TOLERANCE_VIOLATED
deriving DecidableEq, Repr

/-- Observable terminal transition of a goal performed during a tick
(`setAborted` / `setSucceeded` on the realtime goal handle, carrying the
error code written into the preallocated result). -/
inductive GoalEvent where
  | aborted (code : ErrorCode)
  | succeeded (code : ErrorCode)
deriving DecidableEq, Repr

/-- The data of `rt_active_goal_` (a `RealtimeGoalHandlePtr`) that `update`
inspects: pointer identity (modelled as `id`) and whether the preallocated
result / feedback payloads are non-null. -/
structure GoalInfo where
  id : Nat
  resultPresent : Bool
  feedbackPresent : Bool
deriving DecidableEq, Repr

/-- Per-joint state tolerances (`joint_trajectory_controller::StateTolerances`):
position/velocity/acceleration thresholds. -/
structure JointTolerance where
  position : ℚ
  velocity : ℚ
  acceleration : ℚ
deriving DecidableEq, Repr

/-- `SegmentTolerancesPerJoint`: path tolerance (`state_tolerance`), goal
tolerance (`goal_state_tolerance`) and the `goal_time_tolerance` grace
period. -/
structure SegmentTolerances where
  state_tolerance : JointTolerance
  goal_state_tolerance : JointTolerance
  goal_time_tolerance : ℚ
deriving DecidableEq, Repr

/-- One trajectory segment of a per-joint segment list: its time interval,
the motion primitive (position/velocity/acceleration as functions of time),
the possibly-null back reference to the goal that created it (`getGoalHandle`,
modelled by the goal's id) and its tolerances (`getTolerances`). -/
structure Segment where
  startTime : ℚ
  endTime : ℚ
  goalId : Option Nat
  tolerances : SegmentTolerances
  posAt : ℚ → ℚ
  velAt : ℚ → ℚ
  accAt : ℚ → ℚ

/-- Desired joint state produced by sampling a segment. -/
structure Desired where
  position : ℚ
  velocity : ℚ
  acceleration : ℚ
deriving DecidableEq, Repr

/-- Per-joint data read by the real-time loop: the joint's segment list of
the currently followed trajectory (`curr_traj[i]`) and the hardware readings
`joints_[i].getPosition()` / `joints_[i].getVelocity()`. -/
structure JointData where
  segments : List Segment
  position : ℚ
  velocity : ℚ

/-- Modelled from the spec (Segment Sampler, §4.3, read together with the
goal-tolerance supervision of §4.5 which requires the last segment to remain
selected at and past its end time): `findSegment` locates the segment with
the greatest start time that is `≤ t` — the segment whose interval contains
`t` for in-range times, and the last segment once all segments have started —
and returns the end sentinel (`none`) when no segment has started at `t`
(empty list, or `t` before the first segment's start). The returned index
is the segment's position in the list. -/
def findSegmentAux (t : ℚ) : List Segment → Nat → Option (Nat × Segment) → Option (Nat × Segment)
  | [], _, acc => acc
  | s :: rest, i, acc =>
    if s.startTime ≤ t then findSegmentAux t rest (i + 1) (some (i, s))
    else findSegmentAux t rest (i + 1) acc

/-- Modelled from the spec: see `findSegmentAux`. -/
def findSegment (segs : List Segment) (t : ℚ) : Option (Nat × Segment) :=
  findSegmentAux t segs 0 none

/-- Modelled from the spec (§4.3): successful sampling evaluates the
segment's motion primitive at `t`, producing the desired
position/velocity/acceleration. -/
def sampleSegment (seg : Segment) (t : ℚ) : Desired :=
  ⟨seg.posAt t, seg.velAt t, seg.accAt t⟩

/-- Modelled from the spec (§3 JointState and the `angles` package):
wrap-aware shortest angular distance from `a` to `b`.  The real constant π is
not rational, so the half-turn is an explicit parameter `pi`; the function
returns the representative of `b - a` modulo `2 * pi` lying in `[-pi, pi)`. -/
def shortest_angular_distance (pi a b : ℚ) : ℚ :=
  (b - a) - 2 * pi * ((round ((b - a) / (2 * pi)) : ℤ) : ℚ)

/-- The per-joint error computation of `update` (lines 168–176): the position
error is the wrap-aware shortest angular distance from the current to the
desired position, the velocity error is the plain difference desired minus
current (the acceleration error is fixed at zero). -/
def computeJointError (pi curPos curVel : ℚ) (des : Desired) : ℚ × ℚ :=
  (shortest_angular_distance pi curPos des.position, des.velocity - curVel)

/-- Modelled from the spec (Tolerance Checker, §4.4):
`checkStateTolerancePerJoint` passes iff the position error is within the
position threshold and the velocity error within the velocity threshold; a
zero or negative threshold disables the check for that field; the
acceleration threshold is carried but not evaluated.  The `verbose` flag of
the C++ function only adds diagnostics and never changes the result, so it
is not modelled. -/
def checkStateTolerance (errPos errVel : ℚ) (tol : JointTolerance) : Bool :=
  (decide (tol.position ≤ 0) || decide (|errPos| ≤ tol.position)) &&
  (decide (tol.velocity ≤ 0) || decide (|errVel| ≤ tol.velocity))

/-- The goal-tracking state mutated by per-joint supervision:
`rt_active_goal_` and the `successful_joint_traj_` bit per joint. -/
structure SupervisionState where
  activeGoal : Option GoalInfo
  successful : List Bool
deriving DecidableEq, Repr

/-- Result of supervising one joint: the new goal-tracking state, the goal
event issued (if any), and whether a null `preallocated_result_` was
dereferenced (the C++ code would crash there). -/
structure SupervisionOut where
  st : SupervisionState
  event : Option GoalEvent
  crashed : Bool
deriving DecidableEq, Repr

/-- Per-joint tolerance supervision, translated from `update` lines 178–236.
`seg` is the sampled segment, `isLast` whether it is the last segment of the
joint's list (`segment_it == --curr_traj[i].end()`), `errPos`/`errVel` the
instantaneous error, `i` the joint index, `uptime` this tick's uptime.
Only a segment whose (non-null) goal handle equals the current active goal is
supervised.  Inside the segment's interval a failed path-tolerance check
aborts with `PATH_TOLERANCE_VIOLATED` — guarded by `preallocated_result_`
being non-null (a null payload only logs).  At or past the end of the last
segment: within goal tolerance sets the joint's success bit; within the
`goal_time_tolerance` grace window does nothing; otherwise the code
dereferences `preallocated_result_` behind a guard that re-checks only
`rt_segment_goal` (already known non-null), so a null payload is dereferenced
(`crashed`), and with a non-null payload the goal is aborted with
`GOAL_TOLERANCE_VIOLATED` and goal tracking is cleared. -/
def superviseJoint (uptime : ℚ) (seg : Segment) (isLast : Bool)
    (errPos errVel : ℚ) (i : Nat) (st : SupervisionState) : SupervisionOut :=
  match seg.goalId, st.activeGoal with
  | some g, some a =>
    if g = a.id then
      if uptime < seg.endTime then
        if checkStateTolerance errPos errVel seg.tolerances.state_tolerance then
          ⟨st, none, false⟩
        else
          if a.resultPresent then
            ⟨⟨none, st.successful.map (fun _ => false)⟩,
              some (.aborted .PATH_TOLERANCE_VIOLATED), false⟩
          else
            ⟨st, none, false⟩
      else if isLast then
        if checkStateTolerance errPos errVel seg.tolerances.goal_state_tolerance then
          ⟨⟨st.activeGoal, st.successful.set i true⟩, none, false⟩
        else if uptime < seg.endTime + seg.tolerances.goal_time_tolerance then
          ⟨st, none, false⟩
        else
          if a.resultPresent then
            ⟨⟨none, st.successful.map (fun _ => false)⟩,
              some (.aborted .GOAL_TOLERANCE_VIOLATED), false⟩
          else
            ⟨st, none, true⟩
      else
        ⟨st, none, false⟩
    else
      ⟨st, none, false⟩
  | _, _ => ⟨st, none, false⟩

/-- Accumulated outcome of the per-joint loop of `update` (lines 150–237). -/
structure LoopOut where
  st : SupervisionState
  events : List GoalEvent
  crashed : Bool
  sampleFailed : Bool
deriving DecidableEq, Repr

/-- One joint's supervision as performed in the loop body of `update`: the
error is computed from the hardware readings and the sampled desired state,
and the sampled segment is the last one iff its index is the final index of
the joint's segment list (`segment_it == --curr_traj[i].end()`). -/
def jointStep (u pi : ℚ) (jd : JointData) (idx : Nat) (seg : Segment) (i : Nat)
    (st : SupervisionState) : SupervisionOut :=
  superviseJoint u seg (idx + 1 == jd.segments.length)
    (computeJointError pi jd.position jd.velocity (sampleSegment seg u)).1
    (computeJointError pi jd.position jd.velocity (sampleSegment seg u)).2 i st

/-- The per-joint loop of `update` (lines 150–237): for each joint in order,
sample the currently followed trajectory at this tick's uptime (returning
with `sampleFailed` when no segment has started — the code logs and returns
early), compute the wrap-aware error, and run tolerance supervision.  A null
`preallocated_result_` dereference (`crashed`) stops the loop. -/
def processJoints (u pi : ℚ) : List JointData → Nat → SupervisionState → List GoalEvent → LoopOut
  | [], _, st, evs => ⟨st, evs, false, false⟩
  | jd :: rest, i, st, evs =>
    match findSegment jd.segments u with
    | none => ⟨st, evs, false, true⟩
    | some (idx, seg) =>
      if (jointStep u pi jd idx seg i st).crashed then
        ⟨(jointStep u pi jd idx seg i st).st, evs, true, false⟩
      else
        processJoints u pi rest (i + 1) (jointStep u pi jd idx seg i st).st
          (evs ++ (jointStep u pi jd idx seg i st).event.toList)

/-- Output of the goal completion check, `update` lines 239–247. -/
structure CompletionOut where
  activeGoal : Option GoalInfo
  successful : List Bool
  event : Option GoalEvent
deriving DecidableEq, Repr

/-- Goal completion check, translated from `update` lines 239–247: if there
is an active goal, its preallocated result is non-null, and the number of
set success bits equals the number of joints, the goal succeeds with error
code `SUCCESSFUL` and goal tracking is cleared. -/
def goalCompletionCheck (ag : Option GoalInfo) (succ : List Bool) (numJoints : Nat) : CompletionOut :=
  match ag with
  | some a =>
    if a.resultPresent && (succ.count true == numJoints) then
      ⟨none, succ.map (fun _ => false), some (.succeeded .SUCCESSFUL)⟩
    else
      ⟨ag, succ, none⟩
  | none => ⟨ag, succ, none⟩

/-- The effects of one tick, minus the time bookkeeping: goal tracking state,
busy flag, goal events, and whether the hardware command was issued
(`hw_iface_adapter_.updateCommand`), feedback emitted (`setFeedback`),
controller state published (`publishState`), a null payload dereferenced,
or the early return taken. -/
structure CoreOut where
  activeGoal : Option GoalInfo
  successful : List Bool
  busy : Bool
  events : List GoalEvent
  commandIssued : Bool
  feedbackEmitted : Bool
  statePublished : Bool
  crashed : Bool
  earlyReturn : Bool
deriving DecidableEq, Repr

/-- The guard of the feedback block (line 253): feedback is emitted iff an
active goal remains and its preallocated feedback payload is non-null. -/
def feedbackFlag : Option GoalInfo → Bool
  | some a => a.feedbackPresent
  | none => false

/-- The remainder of a tick after the per-joint loop: on a sampling failure
return early (no command, no feedback, no publication, `realtime_busy_` left
`true`); a crash likewise stops the tick; otherwise run the completion
check, issue the hardware command, emit feedback per `feedbackFlag`, publish
controller state, and clear `realtime_busy_`. -/
def updateCoreAux (lo : LoopOut) (numJoints : Nat) : CoreOut :=
  if lo.crashed then
    ⟨lo.st.activeGoal, lo.st.successful, true, lo.events, false, false, false, true, false⟩
  else if lo.sampleFailed then
    ⟨lo.st.activeGoal, lo.st.successful, true, lo.events, false, false, false, false, true⟩
  else
    ⟨(goalCompletionCheck lo.st.activeGoal lo.st.successful numJoints).activeGoal,
      (goalCompletionCheck lo.st.activeGoal lo.st.successful numJoints).successful,
      false,
      lo.events ++ (goalCompletionCheck lo.st.activeGoal lo.st.successful numJoints).event.toList,
      true,
      feedbackFlag (goalCompletionCheck lo.st.activeGoal lo.st.successful numJoints).activeGoal,
      true, false, false⟩

/-- The body of `update` after the time update (lines 150–267): the per-joint
loop followed by `updateCoreAux`. -/
def updateCore (pi uptime : ℚ) (joints : List JointData)
    (ag0 : Option GoalInfo) (succ0 : List Bool) : CoreOut :=
  updateCoreAux (processJoints uptime pi joints 0 ⟨ag0, succ0⟩ []) joints.length

/-- Controller state carried across ticks: the joints (hardware readings and
currently followed per-joint segment lists), `rt_active_goal_`,
`successful_joint_traj_`, the accumulated uptime of the time exchange, and
the `realtime_busy_` flag. -/
structure ControllerState where
  joints : List JointData
  activeGoal : Option GoalInfo
  successful : List Bool
  uptime : ℚ
  realtimeBusy : Bool

/-- Result of one call to `update`: the post-tick controller state plus the
tick's observable effects. -/
structure UpdateResult where
  state : ControllerState
  events : List GoalEvent
  commandIssued : Bool
  feedbackEmitted : Bool
  statePublished : Bool
  crashed : Bool
  earlyReturn : Bool

/-- The real-time `update` (lines 124–268), for one tick of duration
`period`: set `realtime_busy_`, advance the uptime of the time exchange by
`period` (line 137), then run the per-joint supervision loop, completion
check, command generation, feedback and state publication of `updateCore`.
`pi` is the half-turn constant used by the wrap-aware error. -/
def coreOf (pi : ℚ) (s : ControllerState) (period : ℚ) : CoreOut :=
  updateCore pi (s.uptime + period) s.joints s.activeGoal s.successful

/-- See the doc comment right above `coreOf`. -/
def update (pi : ℚ) (s : ControllerState) (period : ℚ) : UpdateResult :=
  { state := { joints := s.joints, activeGoal := (coreOf pi s period).activeGoal,
               successful := (coreOf pi s period).successful,
               uptime := s.uptime + period, realtimeBusy := (coreOf pi s period).busy },
    events := (coreOf pi s period).events,
    commandIssued := (coreOf pi s period).commandIssued,
    feedbackEmitted := (coreOf pi s period).feedbackEmitted,
    statePublished := (coreOf pi s period).statePublished,
    crashed := (coreOf pi s period).crashed,
    earlyReturn := (coreOf pi s period).earlyReturn }

/-- Iterated ticks: fold `update` over a list of periods. -/
def runUpdates (pi : ℚ) (s : ControllerState) : List ℚ → ControllerState
  | [] => s
  | p :: ps => runUpdates pi (update pi s p).state ps

/-- Modelled from the spec (§4.5 accept/reject):
`joint_trajectory_controller::internal::mapping t1 t2` maps each name of
`t1` to its index in `t2`; it returns the empty vector when `t1` is larger
than `t2` or some name of `t1` does not occur in `t2` (the failure case the
caller tests with `empty()`). -/
def mapping (t1 t2 : List String) : List Nat :=
  if t2.length < t1.length then []
  else
    match t1.mapM (fun n => t2.findIdx? (fun m => m == n)) with
    | some l => l
    | none => []

/-- Outcome reported to the goal handle by `goalCB`. -/
inductive GoalCBOutcome where
  | accepted
  | rejected (code : ErrorCode)
deriving DecidableEq, Repr

/-- Non-real-time controller state touched by `goalCB`: the active goal
reference and the trajectory installed in the trajectory exchange
(modelled by an identifying token). -/
structure NonRTState where
  activeGoal : Option GoalInfo
  installedTrajectory : Option Nat
deriving DecidableEq, Repr

/-- The goal callback (lines 61–121).  Reject with `INVALID_GOAL` if the
controller is not running; with `INVALID_JOINTS` if partial-joint goals are
disallowed and the request's joint-name count differs from the controller's,
or if the requested names cannot be mapped onto the controller's names; all
rejections leave the state untouched.  Otherwise `updateTrajectoryCommand`
is attempted (its success is the oracle `updateOk`, its internals live
upstream): on success the previous active goal is preempted, the new
trajectory `newTraj` is installed and the new goal `newGoal` becomes active;
on failure the goal is rejected with `INVALID_GOAL` and nothing is
installed. -/
def goalCB (running allowPartialJointsGoal : Bool) (ctrlNames reqNames : List String)
    (updateOk : Bool) (newGoal : GoalInfo) (newTraj : Nat) (s : NonRTState) :
    GoalCBOutcome × NonRTState :=
  if !running then (.rejected .INVALID_GOAL, s)
  else if !allowPartialJointsGoal && (reqNames.length != ctrlNames.length) then
    (.rejected .INVALID_JOINTS, s)
  else if (mapping reqNames ctrlNames).isEmpty then
    (.rejected .INVALID_JOINTS, s)
  else if updateOk then
    (.accepted, ⟨some newGoal, some newTraj⟩)
  else
    (.rejected .INVALID_GOAL, s)

/-- Tight tolerances used by the concrete scenarios: path and goal position
thresholds of `1`, velocity checks disabled (threshold `0`), no grace period. -/
def tolStrict : SegmentTolerances := ⟨⟨1, 0, 0⟩, ⟨1, 0, 0⟩, 0⟩

/-- A constant-position segment over `[0, 1)` owned by goal `0`. -/
def segShort : Segment := ⟨0, 1, some 0, tolStrict, fun _ => 5, fun _ => 0, fun _ => 0⟩

/-- A constant-position segment over `[0, 2)` owned by goal `0`. -/
def segLong : Segment := ⟨0, 2, some 0, tolStrict, fun _ => 5, fun _ => 0, fun _ => 0⟩

/-- A segment over `[0, 2)` owned by no goal. -/
def segFree : Segment := ⟨0, 2, none, tolStrict, fun _ => 0, fun _ => 0, fun _ => 0⟩

/-- One joint far from its target (position `0` vs desired `5`), active goal
`0` whose preallocated result payload is null, half a second into the run:
the next one-second tick passes the end of `segShort` with the goal
tolerance violated and the grace window elapsed. -/
def sGoalNull : ControllerState :=
  ⟨[⟨[segShort], 0, 0⟩], some ⟨0, false, false⟩, [false], 1/2, false⟩

/-- Like `sGoalNull` but with `segLong`, so the next tick is still inside
the segment and the path tolerance is violated instead. -/
def sPathNull : ControllerState :=
  ⟨[⟨[segLong], 0, 0⟩], some ⟨0, false, false⟩, [false], 1/2, false⟩

/-- Like `sPathNull` but the active goal's preallocated payloads are
non-null: the tick aborts the goal with `PATH_TOLERANCE_VIOLATED`. -/
def sPathAbort : ControllerState :=
  ⟨[⟨[segLong], 0, 0⟩], some ⟨0, true, true⟩, [false], 1/2, false⟩

/-- A quiet state: one joint tracking `segFree` with no goal attached. -/
def sNormal : ControllerState :=
  ⟨[⟨[segFree], 0, 0⟩], none, [false], 0, false⟩

/-- A state whose only joint has an empty segment list, so sampling fails. -/
def sNoSegment : ControllerState :=
  ⟨[⟨[], 0, 0⟩], none, [false], 0, false⟩

/-- A goal-tracking state with active goal `0` (payloads non-null) and one
unset success bit, used by the supervision scenarios. -/
def stW : SupervisionState := ⟨some ⟨0, true, true⟩, [false]⟩

/-- The wrap-aware distance lands within one half-turn of zero: the rounding
term cancels all whole turns, leaving a remainder of magnitude at most `pi`. -/
theorem abs_shortest_angular_distance_le (pi a b : ℚ) (hpi : 0 < pi) :
    |shortest_angular_distance pi a b| ≤ pi := by
  unfold shortest_angular_distance
  have h2 : (0 : ℚ) < 2 * pi := by linarith
  have hkey : (b - a) - 2 * pi * ((round ((b - a) / (2 * pi)) : ℤ) : ℚ)
      = (2 * pi) * ((b - a) / (2 * pi) - ((round ((b - a) / (2 * pi)) : ℤ) : ℚ)) := by
    field_simp
  rw [hkey, abs_mul, abs_of_pos h2]
  have hb := abs_sub_round ((b - a) / (2 * pi))
  nlinarith [abs_nonneg ((b - a) / (2 * pi) - ((round ((b - a) / (2 * pi)) : ℤ) : ℚ))]

/-- With no active goal, per-joint supervision is a no-op: the identity guard
`rt_segment_goal == rt_active_goal_` fails. -/
theorem superviseJoint_inactive (u : ℚ) (seg : Segment) (l : Bool) (ep ev : ℚ) (i : Nat)
    (st : SupervisionState) (h : st.activeGoal = none) :
    superviseJoint u seg l ep ev i st = ⟨st, none, false⟩ := by
  unfold superviseJoint
  rcases hg : seg.goalId with _ | g <;> rw [h]

/-- Each supervision step either issues no goal event or ends with the
active-goal reference cleared. -/
theorem superviseJoint_cases (u : ℚ) (seg : Segment) (l : Bool) (ep ev : ℚ) (i : Nat)
    (st : SupervisionState) :
    (superviseJoint u seg l ep ev i st).event = none ∨
    (superviseJoint u seg l ep ev i st).st.activeGoal = none := by
  unfold superviseJoint
  rcases seg.goalId with _ | g <;> rcases st.activeGoal with _ | a <;> simp
  split_ifs <;> simp

/-- Whenever per-joint supervision issues a goal event (an abort), it also
clears the active-goal reference in the same step. -/
theorem superviseJoint_event_clears (u : ℚ) (seg : Segment) (l : Bool) (ep ev : ℚ) (i : Nat)
    (st : SupervisionState) (e : GoalEvent)
    (h : (superviseJoint u seg l ep ev i st).event = some e) :
    (superviseJoint u seg l ep ev i st).st.activeGoal = none := by
  rcases superviseJoint_cases u seg l ep ev i st with hc | hc
  · rw [h] at hc; exact absurd hc (by simp)
  · exact hc

/-- If the event list can only be nonempty when the active goal is already
cleared, the per-joint loop preserves that: any tick that has recorded a goal
event has no active goal from that point on. -/
theorem processJoints_events_clear (u pi : ℚ) (js : List JointData) :
    ∀ (i : Nat) (st : SupervisionState) (evs : List GoalEvent),
      (evs ≠ [] → st.activeGoal = none) →
      ((processJoints u pi js i st evs).events ≠ [] →
        (processJoints u pi js i st evs).st.activeGoal = none) := by
  induction js with
  | nil => intro i st evs h; simpa [processJoints] using h
  | cons jd rest ih =>
    intro i st evs h
    simp only [processJoints]
    rcases hfs : findSegment jd.segments u with _ | p
    · simpa using h
    · rcases p with ⟨idx, seg⟩
      simp only
      rcases hcr : (jointStep u pi jd idx seg i st).crashed with _ | _
      · simp only [Bool.false_eq_true, if_false]
        apply ih
        intro hne
        rcases hev : (jointStep u pi jd idx seg i st).event with _ | e
        · have hevs : evs ≠ [] := by
            intro hnil; rw [hnil, hev] at hne; simp at hne
          have hst := h hevs
          have := superviseJoint_inactive u seg (idx + 1 == jd.segments.length)
            (computeJointError pi jd.position jd.velocity (sampleSegment seg u)).1
            (computeJointError pi jd.position jd.velocity (sampleSegment seg u)).2 i st hst
          unfold jointStep
          rw [this]
          exact hst
        · exact superviseJoint_event_clears u seg (idx + 1 == jd.segments.length)
            (computeJointError pi jd.position jd.velocity (sampleSegment seg u)).1
            (computeJointError pi jd.position jd.velocity (sampleSegment seg u)).2 i st e hev
      · simp only [if_true]
        intro hne
        have hevs : evs ≠ [] := by simpa using hne
        have hst := h hevs
        have := superviseJoint_inactive u seg (idx + 1 == jd.segments.length)
          (computeJointError pi jd.position jd.velocity (sampleSegment seg u)).1
          (computeJointError pi jd.position jd.velocity (sampleSegment seg u)).2 i st hst
        unfold jointStep
        rw [this]
        exact hst

/-- If some joint of the list has no segment covering the sampling time, the
loop ends in a crash or (normally) in the sampling-failure early return. -/
theorem processJoints_sample_fail (u pi : ℚ) (js : List JointData) :
    ∀ (i : Nat) (st : SupervisionState) (evs : List GoalEvent),
      (∃ jd ∈ js, (findSegment jd.segments u).isNone = true) →
      (processJoints u pi js i st evs).crashed = true ∨
        (processJoints u pi js i st evs).sampleFailed = true := by
  induction js with
  | nil => intro i st evs h; simp at h
  | cons jd rest ih =>
    intro i st evs h
    simp only [processJoints]
    rcases hfs : findSegment jd.segments u with _ | p
    · simp
    · rcases p with ⟨idx, seg⟩
      simp only
      have hrest : ∃ j ∈ rest, (findSegment j.segments u).isNone = true := by
        rcases h with ⟨j, hj, hnone⟩
        rcases List.mem_cons.mp hj with hhead | htail
        · rw [hhead, hfs] at hnone; simp at hnone
        · exact ⟨j, htail, hnone⟩
      rcases hcr : (jointStep u pi jd idx seg i st).crashed with _ | _
      · simp only [Bool.false_eq_true, if_false]
        exact ih _ _ _ hrest
      · simp

/-- The completion check only succeeds a goal while simultaneously clearing
the active-goal reference. -/
theorem goalCompletionCheck_event_clears (ag : Option GoalInfo) (succ : List Bool) (n : Nat)
    (e : GoalEvent) (h : (goalCompletionCheck ag succ n).event = some e) :
    (goalCompletionCheck ag succ n).activeGoal = none := by
  rcases ag with _ | a
  · simp [goalCompletionCheck] at h
  · by_cases hc : (a.resultPresent && (succ.count true == n)) = true
    · simp [goalCompletionCheck, hc]
    · simp [goalCompletionCheck, hc] at h

/-- The completion check leaves a cleared active-goal reference cleared. -/
theorem goalCompletionCheck_none (succ : List Bool) (n : Nat) :
    goalCompletionCheck none succ n = ⟨none, succ, none⟩ := rfl

/-- The uptime stored by a tick is the previous uptime plus the period, in
every branch (early return and crash included). -/
theorem update_state_uptime (pi : ℚ) (s : ControllerState) (period : ℚ) :
    (update pi s period).state.uptime = s.uptime + period := rfl

/-- Monotonicity of uptime along any run of ticks with nonnegative periods. -/
theorem runUpdates_uptime_mono (pi : ℚ) :
    ∀ (ps : List ℚ) (s : ControllerState), (∀ p ∈ ps, 0 ≤ p) →
      s.uptime ≤ (runUpdates pi s ps).uptime := by
  intro ps
  induction ps with
  | nil => intro s _; exact le_refl _
  | cons p ps ih =>
    intro s h
    have h1 : s.uptime ≤ (update pi s p).state.uptime := by
      rw [update_state_uptime]
      have : 0 ≤ p := h p (by simp)
      linarith
    calc s.uptime ≤ (update pi s p).state.uptime := h1
      _ ≤ (runUpdates pi (update pi s p).state ps).uptime :=
          ih _ (fun q hq => h q (by simp [hq]))

/-- The busy flag at the end of a tick: cleared on the normal path, still set
when the tick returned early. -/
theorem updateCoreAux_flags (lo : LoopOut) (n : Nat) :
    ((updateCoreAux lo n).crashed = false → (updateCoreAux lo n).earlyReturn = false →
      (updateCoreAux lo n).busy = false) ∧
    ((updateCoreAux lo n).earlyReturn = true → (updateCoreAux lo n).busy = true) := by
  unfold updateCoreAux
  split_ifs <;> simp

/-- An aborted tick (crash or sampling failure) issues no command, emits no
feedback and publishes no state; if it did not crash it is the early return. -/
theorem updateCoreAux_skip (lo : LoopOut) (n : Nat)
    (h : lo.crashed = true ∨ lo.sampleFailed = true) :
    (updateCoreAux lo n).commandIssued = false ∧
    (updateCoreAux lo n).feedbackEmitted = false ∧
    (updateCoreAux lo n).statePublished = false ∧
    ((updateCoreAux lo n).crashed = false → (updateCoreAux lo n).earlyReturn = true) := by
  rcases hcr : lo.crashed with _ | _
  · rcases h with h | h
    · rw [hcr] at h; exact absurd h (by simp)
    · unfold updateCoreAux; simp [hcr, h]
  · unfold updateCoreAux; simp [hcr]

/-- A tick whose event list is nonempty ends without feedback, provided any
recorded loop event implies the active goal was cleared. -/
theorem updateCoreAux_no_feedback (lo : LoopOut) (n : Nat)
    (hinv : lo.events ≠ [] → lo.st.activeGoal = none)
    (hev : (updateCoreAux lo n).events ≠ []) :
    (updateCoreAux lo n).feedbackEmitted = false := by
  rcases hcr : lo.crashed with _ | _
  · rcases hsf : lo.sampleFailed with _ | _
    · unfold updateCoreAux at hev ⊢
      simp only [hcr, hsf, Bool.false_eq_true, if_false] at hev ⊢
      rcases hagl : lo.st.activeGoal with _ | a
      · rw [goalCompletionCheck_none]
        rfl
      · rw [hagl] at hev
        rcases hevc : (goalCompletionCheck (some a) lo.st.successful n).event with _ | e
        · have hlo : lo.events ≠ [] := by
            rw [hevc] at hev
            simpa using hev
          rw [hinv hlo] at hagl
          exact absurd hagl (by simp)
        · have hcl := goalCompletionCheck_event_clears (some a) lo.st.successful n e hevc
          rw [hcl]
          rfl
    · unfold updateCoreAux; simp [hcr, hsf]
  · unfold updateCoreAux; simp [hcr]

/-- Claim C1: on a tick where a tolerance violation would abort the active
goal but the goal's preallocated result payload is null, the path-tolerance
branch only logs (no crash, no goal-state change, no event), but the
goal-tolerance branch dereferences the null payload: at the concrete state
`sGoalNull` (last segment ended, goal tolerance violated, grace elapsed,
`preallocated_result_` null) the embedded `update` reaches the null
dereference (`crashed`), contradicting the claim for that branch; at
`sPathNull` (inside the segment, path tolerance violated, payload null) the
tick is a no-op for goal state, as claimed. -/
theorem c1_null_result_payload :
    (update 4 sGoalNull 1).crashed = true ∧
    (update 4 sGoalNull 1).events = [] ∧
    (update 4 sPathNull 1).crashed = false ∧
    (update 4 sPathNull 1).state.activeGoal = sPathNull.activeGoal ∧
    (update 4 sPathNull 1).state.successful = sPathNull.successful ∧
    (update 4 sPathNull 1).events = [] := by
  with_unfolding_all decide

/-- Claim C2: for a joint whose sampled segment is the last of its list and
belongs to the active goal (whose preallocated result is non-null), once the
tick's uptime has reached the segment's end time: a passed goal-state
tolerance check sets that joint's completion flag; a failed check still
inside the `goal_time_tolerance` grace window changes nothing; a failed
check past the grace window aborts with `GOAL_TOLERANCE_VIOLATED`, clears
the active-goal reference and resets all completion flags. -/
theorem c2_goal_tolerance_supervision (u : ℚ) (seg : Segment) (ep ev : ℚ) (i : Nat)
    (st : SupervisionState) (a : GoalInfo) (g : Nat)
    (hg : seg.goalId = some g) (ha : st.activeGoal = some a) (hid : g = a.id)
    (hres : a.resultPresent = true) (hend : seg.endTime ≤ u) :
    (checkStateTolerance ep ev seg.tolerances.goal_state_tolerance = true →
      superviseJoint u seg true ep ev i st =
        ⟨⟨st.activeGoal, st.successful.set i true⟩, none, false⟩) ∧
    (checkStateTolerance ep ev seg.tolerances.goal_state_tolerance = false →
      u < seg.endTime + seg.tolerances.goal_time_tolerance →
      superviseJoint u seg true ep ev i st = ⟨st, none, false⟩) ∧
    (checkStateTolerance ep ev seg.tolerances.goal_state_tolerance = false →
      seg.endTime + seg.tolerances.goal_time_tolerance ≤ u →
      superviseJoint u seg true ep ev i st =
        ⟨⟨none, st.successful.map (fun _ => false)⟩,
          some (.aborted .GOAL_TOLERANCE_VIOLATED), false⟩) := by
  have hnlt : ¬ u < seg.endTime := not_lt.mpr hend
  refine ⟨?_, ?_, ?_⟩
  · intro hchk
    unfold superviseJoint
    rw [hg, ha]
    simp [hid, hnlt, hchk]
  · intro hchk hgr
    unfold superviseJoint
    rw [hg, ha]
    simp [hid, hnlt, hchk, hgr]
  · intro hchk hgr
    have hngr : ¬ u < seg.endTime + seg.tolerances.goal_time_tolerance := not_lt.mpr hgr
    unfold superviseJoint
    rw [hg, ha]
    simp [hid, hnlt, hchk, hngr, hres]

/-- Witness for C2: at `u = 3/2` past the end of `segShort` with zero error,
the completion flag of joint `0` is set. -/
theorem c2_goal_tolerance_supervision_witness :
    superviseJoint (3/2) segShort true 0 0 0 stW =
      ⟨⟨stW.activeGoal, stW.successful.set 0 true⟩, none, false⟩ :=
  (c2_goal_tolerance_supervision (3/2) segShort 0 0 0 stW ⟨0, true, true⟩ 0
      (by with_unfolding_all decide) (by with_unfolding_all decide)
      (by with_unfolding_all decide) (by with_unfolding_all decide)
      (by with_unfolding_all decide)).1 (by with_unfolding_all decide)

/-- Claim C3: for a joint whose sampled segment belongs to the active goal
(whose preallocated result is non-null), while the uptime is strictly before
the segment's end time a failed path-tolerance check aborts the goal with
`PATH_TOLERANCE_VIOLATED` in the same supervision step, clears the
active-goal reference and resets all completion flags. -/
theorem c3_path_tolerance_abort (u : ℚ) (seg : Segment) (isLast : Bool) (ep ev : ℚ) (i : Nat)
    (st : SupervisionState) (a : GoalInfo) (g : Nat)
    (hg : seg.goalId = some g) (ha : st.activeGoal = some a) (hid : g = a.id)
    (hres : a.resultPresent = true) (hu : u < seg.endTime)
    (hfail : checkStateTolerance ep ev seg.tolerances.state_tolerance = false) :
    superviseJoint u seg isLast ep ev i st =
      ⟨⟨none, st.successful.map (fun _ => false)⟩,
        some (.aborted .PATH_TOLERANCE_VIOLATED), false⟩ := by
  unfold superviseJoint
  rw [hg, ha]
  simp [hid, hu, hfail, hres]

/-- Witness for C3: at `u = 3/2` inside `segLong` with position error `3`
beyond the path tolerance `1`, the goal is aborted. -/
theorem c3_path_tolerance_abort_witness :
    superviseJoint (3/2) segLong true 3 0 0 stW =
      ⟨⟨none, stW.successful.map (fun _ => false)⟩,
        some (.aborted .PATH_TOLERANCE_VIOLATED), false⟩ :=
  c3_path_tolerance_abort (3/2) segLong true 3 0 0 stW ⟨0, true, true⟩ 0
    (by with_unfolding_all decide) (by with_unfolding_all decide)
    (by with_unfolding_all decide) (by with_unfolding_all decide)
    (by with_unfolding_all decide) (by with_unfolding_all decide)

/-- Claim C4: with an active goal whose preallocated result is non-null, the
completion check succeeds the goal exactly when the number of set completion
flags equals the number of joints — never before — and on that transition
the result carries `SUCCESSFUL` and the active-goal reference and completion
flags are cleared. -/
theorem c4_success_iff_all_joints (a : GoalInfo) (succ : List Bool) (n : Nat)
    (hres : a.resultPresent = true) :
    ((goalCompletionCheck (some a) succ n).event = some (.succeeded .SUCCESSFUL) ↔
      succ.count true = n) ∧
    (succ.count true = n →
      goalCompletionCheck (some a) succ n =
        ⟨none, succ.map (fun _ => false), some (.succeeded .SUCCESSFUL)⟩) := by
  constructor
  · constructor
    · intro h
      by_cases hc : succ.count true = n
      · exact hc
      · exfalso
        simp [goalCompletionCheck, hres, hc] at h
    · intro hc
      simp [goalCompletionCheck, hres, hc]
  · intro hc
    simp [goalCompletionCheck, hres, hc]

/-- Witness for C4: one joint, flag set, goal succeeds with `SUCCESSFUL` and
tracking cleared. -/
theorem c4_success_iff_all_joints_witness :
    goalCompletionCheck (some ⟨0, true, true⟩) [true] 1 =
      ⟨none, [true].map (fun _ => false), some (.succeeded .SUCCESSFUL)⟩ :=
  (c4_success_iff_all_joints ⟨0, true, true⟩ [true] 1
      (by with_unfolding_all decide)).2 (by with_unfolding_all decide)

/-- Claim C5: a goal request reaching a running controller is rejected with
`INVALID_JOINTS` — installing no trajectory and mutating no state — whenever
partial-joint goals are disallowed and the request's joint-name count
differs from the controller's, or the requested names cannot be mapped onto
the controller's names. -/
theorem c5_invalid_joints_rejection (ctrlNames reqNames : List String)
    (allowPartialJointsGoal updateOk : Bool) (ng : GoalInfo) (nt : Nat) (s : NonRTState)
    (h : (allowPartialJointsGoal = false ∧ reqNames.length ≠ ctrlNames.length) ∨
         mapping reqNames ctrlNames = []) :
    goalCB true allowPartialJointsGoal ctrlNames reqNames updateOk ng nt s =
      (.rejected .INVALID_JOINTS, s) := by
  unfold goalCB
  rcases h with ⟨hp, hl⟩ | hm
  · subst hp
    simp [hl]
  · by_cases hsz : (!allowPartialJointsGoal && (reqNames.length != ctrlNames.length)) = true
    · simp [hsz]
    · simp [hsz, hm]

/-- Witness for C5: a running two-joint controller with partial goals
disallowed rejects a one-joint request with `INVALID_JOINTS`, untouched
state. -/
theorem c5_invalid_joints_rejection_witness :
    goalCB true false ["a", "b"] ["a"] true ⟨1, true, true⟩ 5 ⟨none, none⟩ =
      (.rejected .INVALID_JOINTS, ⟨none, none⟩) :=
  c5_invalid_joints_rejection ["a", "b"] ["a"] false true ⟨1, true, true⟩ 5 ⟨none, none⟩
    (Or.inl ⟨rfl, by with_unfolding_all decide⟩)

/-- Claim C6: on a tick where, for some joint, no segment of the current
trajectory has started at the tick's uptime, `update` aborts the tick: the
command adapter is not invoked, no feedback is emitted and no controller
state is published; absent a crash before reaching that joint, the early
return is taken (where the code logs the error). -/
theorem c6_sampling_failure_skips_commands (pi : ℚ) (s : ControllerState) (period : ℚ)
    (h : ∃ jd ∈ s.joints, (findSegment jd.segments (s.uptime + period)).isNone = true) :
    (update pi s period).commandIssued = false ∧
    (update pi s period).feedbackEmitted = false ∧
    (update pi s period).statePublished = false ∧
    ((update pi s period).crashed = false → (update pi s period).earlyReturn = true) :=
  updateCoreAux_skip
    (processJoints (s.uptime + period) pi s.joints 0 ⟨s.activeGoal, s.successful⟩ [])
    s.joints.length
    (processJoints_sample_fail (s.uptime + period) pi s.joints 0
      ⟨s.activeGoal, s.successful⟩ [] h)

/-- Witness for C6: a joint with an empty segment list makes the tick return
early without commands, feedback or state publication. -/
theorem c6_sampling_failure_skips_commands_witness :
    (update 1 sNoSegment 1).commandIssued = false ∧
    (update 1 sNoSegment 1).feedbackEmitted = false ∧
    (update 1 sNoSegment 1).statePublished = false ∧
    ((update 1 sNoSegment 1).crashed = false → (update 1 sNoSegment 1).earlyReturn = true) :=
  c6_sampling_failure_skips_commands 1 sNoSegment 1 (by with_unfolding_all decide)

/-- Claim C7: the per-joint position error is the wrap-aware shortest
angular distance between current and desired position, hence of magnitude at
most the half-turn `pi` even when the raw difference exceeds `pi`, and the
velocity error is the plain difference desired minus current. -/
theorem c7_wrap_aware_error (pi curPos curVel : ℚ) (des : Desired) (hpi : 0 < pi) :
    (computeJointError pi curPos curVel des).1 =
      shortest_angular_distance pi curPos des.position ∧
    |(computeJointError pi curPos curVel des).1| ≤ pi ∧
    (computeJointError pi curPos curVel des).2 = des.velocity - curVel :=
  ⟨rfl, abs_shortest_angular_distance_le pi curPos des.position hpi, rfl⟩

/-- Witness for C7: with half-turn `4`, a raw difference of `5 > 4` wraps to
an error of `-3`, within one half-turn. -/
theorem c7_wrap_aware_error_witness :
    |(computeJointError 4 0 0 ⟨5, 2, 0⟩).1| ≤ 4 ∧
    (computeJointError 4 0 0 ⟨5, 2, 0⟩).1 = -3 ∧
    (computeJointError 4 0 0 ⟨5, 2, 0⟩).2 = 2 :=
  ⟨(c7_wrap_aware_error 4 0 0 ⟨5, 2, 0⟩ (by with_unfolding_all decide)).2.1,
   by with_unfolding_all decide, by with_unfolding_all decide⟩

/-- Claim C8: every tick stores `uptime(t) = uptime(t-1) + period(t)` in the
time exchange (in all branches, early return included), and uptime never
decreases across ticks with nonnegative periods. -/
theorem c8_uptime_invariant (pi : ℚ) (s : ControllerState) (period : ℚ) :
    (update pi s period).state.uptime = s.uptime + period ∧
    (0 ≤ period → s.uptime ≤ (update pi s period).state.uptime) ∧
    (∀ ps : List ℚ, (∀ p ∈ ps, 0 ≤ p) → s.uptime ≤ (runUpdates pi s ps).uptime) := by
  refine ⟨update_state_uptime pi s period, ?_, ?_⟩
  · intro hp
    rw [update_state_uptime]
    linarith
  · intro ps hps
    exact runUpdates_uptime_mono pi ps s hps

/-- Witness for C8: a quiet tick of period `1` advances uptime from `0` to
`1`, and a run of periods `[1, 2]` does not decrease it. -/
theorem c8_uptime_invariant_witness :
    (update 1 sNormal 1).state.uptime = sNormal.uptime + 1 ∧
    sNormal.uptime ≤ (update 1 sNormal 1).state.uptime ∧
    sNormal.uptime ≤ (runUpdates 1 sNormal [1, 2]).uptime :=
  ⟨(c8_uptime_invariant 1 sNormal 1).1,
   (c8_uptime_invariant 1 sNormal 1).2.1 (by with_unfolding_all decide),
   (c8_uptime_invariant 1 sNormal 1).2.2 [1, 2] (by with_unfolding_all decide)⟩

/-- Claim C9: `update` raises `realtime_busy_` on entry and clears it just
before its normal return, but the early-return path taken when no segment
covers the current time leaves the tick with `realtime_busy_` still set. -/
theorem c9_realtime_busy (pi : ℚ) (s : ControllerState) (period : ℚ) :
    ((update pi s period).crashed = false → (update pi s period).earlyReturn = false →
      (update pi s period).state.realtimeBusy = false) ∧
    ((update pi s period).earlyReturn = true →
      (update pi s period).state.realtimeBusy = true) :=
  updateCoreAux_flags
    (processJoints (s.uptime + period) pi s.joints 0 ⟨s.activeGoal, s.successful⟩ [])
    s.joints.length

/-- Witness for C9: a normal tick ends with the busy flag cleared; a tick
that fails to sample leaves it set. -/
theorem c9_realtime_busy_witness :
    (update 1 sNormal 1).state.realtimeBusy = false ∧
    (update 1 sNoSegment 1).state.realtimeBusy = true :=
  ⟨(c9_realtime_busy 1 sNormal 1).1 (by with_unfolding_all decide)
      (by with_unfolding_all decide),
   (c9_realtime_busy 1 sNoSegment 1).2 (by with_unfolding_all decide)⟩

/-- Claim C10: on any tick in which the active goal reaches a terminal state
(aborted for a tolerance violation or marked succeeded — i.e. the tick's
event list is nonempty), no feedback is emitted for it that tick: the
active-goal reference is cleared with the transition, and the feedback block
only runs for a goal still active after the completion check. -/
theorem c10_no_feedback_on_terminal_tick (pi : ℚ) (s : ControllerState) (period : ℚ)
    (h : (update pi s period).events ≠ []) :
    (update pi s period).feedbackEmitted = false :=
  updateCoreAux_no_feedback
    (processJoints (s.uptime + period) pi s.joints 0 ⟨s.activeGoal, s.successful⟩ [])
    s.joints.length
    (processJoints_events_clear (s.uptime + period) pi s.joints 0
      ⟨s.activeGoal, s.successful⟩ [] (by simp))
    h

/-- Witness for C10: a tick aborting the goal for a path-tolerance violation
emits no feedback although the goal's feedback payload is non-null. -/
theorem c10_no_feedback_on_terminal_tick_witness :
    (update 4 sPathAbort 1).feedbackEmitted = false :=
  c10_no_feedback_on_terminal_tick 4 sPathAbort 1 (by with_unfolding_all decide)

end KD45
